import Mathlib

/-!
Shallow embedding of the streamable HTTP transport in `src/transport.ts`
(class `StreamableHttpTransport`). Pure functions model the transport
methods; the mutable `sessions` map is threaded explicitly; platform
facilities (the `Map` class, `JSON.parse`, `JSON.stringify`, the WHATWG
`URL` parser, `Math.random`, stream controllers) are modelled by
executable Lean counterparts documented at each definition.
-/

namespace StreamableHttp

/-- A JSON-RPC id value: a string or an integer (the shapes the SDK type
`JSONRPCMessage` allows for a non-null `id`). -/
inductive RpcId where
  | str : String → RpcId
  | num : Int → RpcId
deriving DecidableEq

/-- View of a decoded JSON-RPC message object, as the transport observes it.
`idField = none` models an absent `id` field, `some none` models `id: null`,
and `some (some v)` a non-null id — exactly the distinctions drawn by the
test `"id" in message && message.id !== null` at `transport.ts:72` and
`transport.ts:120`. `params` carries the serialized parameters value when a
`params` field is present; `hasResult`/`hasError` record the presence of
`result`/`error` fields (their payloads are irrelevant to the transport). -/
structure JSONRPCMessage where
  jsonrpc : Option String
  idField : Option (Option RpcId)
  method : Option String
  params : Option String
  hasResult : Bool
  hasError : Bool
deriving DecidableEq

/-- Rendering of an id value, modelling `JSON.stringify` on that field. -/
def idJson : Option RpcId → String
  | none => "null"
  | some (RpcId.str s) => "\"" ++ s ++ "\""
  | some (RpcId.num n) => toString n

/-- One `"key":value` JSON member. -/
def fieldJson (k v : String) : String := "\"" ++ k ++ "\":" ++ v

/-- Model of `JSON.stringify(message)` for the message view above: the
present fields rendered as one JSON object (result and error payloads are
abstracted to the empty object; member order is the canonical protocol
order). -/
def stringify (m : JSONRPCMessage) : String :=
  let fs :=
    (match m.jsonrpc with
      | some v => [fieldJson "jsonrpc" ("\"" ++ v ++ "\"")]
      | none => [])
    ++ (match m.idField with
      | some i => [fieldJson "id" (idJson i)]
      | none => [])
    ++ (match m.method with
      | some v => [fieldJson "method" ("\"" ++ v ++ "\"")]
      | none => [])
    ++ (match m.params with
      | some v => [fieldJson "params" v]
      | none => [])
    ++ (if m.hasResult then [fieldJson "result" "\x7b\x7d"] else [])
    ++ (if m.hasError then [fieldJson "error" "\x7b\x7d"] else [])
  "\x7b" ++ String.intercalate "," fs ++ "\x7d"

/-- Model of a `ReadableStreamDefaultController<string>`: `closed = true`
models a controller whose stream has been closed or cancelled, on which
`enqueue` throws (the situation caught at `transport.ts:173`). -/
structure Controller where
  closed : Bool
deriving DecidableEq

/-- The `Session` interface of `transport.ts:15`: an id plus an optional
stream controller. -/
structure Session where
  id : String
  controller : Option Controller
deriving DecidableEq

/-- The `sessions` map (`Map<string, Session>`), modelled as an insertion
ordered association list, matching the iteration order of a JS `Map`. -/
abbrev SessionMap := List (String × Session)

/-- Model of `Map.prototype.set`: replace in place when the key is present,
else append. -/
def mapSet : SessionMap → String → Session → SessionMap
  | [], k, v => [(k, v)]
  | (k0, v0) :: rest, k, v =>
    if k0 = k then (k, v) :: rest else (k0, v0) :: mapSet rest k v

/-- The server-sent-events frame built at `transport.ts:166`:
`data: ` followed by the JSON encoding and the two-newline delimiter. -/
def eventFrame (m : JSONRPCMessage) : String :=
  "data: " ++ stringify m ++ "\n\n"

/-- True when the loop body of `broadcastMessage` keeps the session in the
map: sessions without a controller are skipped silently, sessions whose
enqueue throws are deleted (`transport.ts:168`-`177`). -/
def sessionKept (s : Session) : Bool :=
  match s.controller with
  | none => true
  | some c => !c.closed

/-- True when the loop body of `broadcastMessage` successfully enqueues to
the session: a controller is present and the stream is still open. -/
def sessionWritable (s : Session) : Bool :=
  match s.controller with
  | none => false
  | some c => !c.closed

/-- The `for` loop of `broadcastMessage` (`transport.ts:168`-`177`): walks
the entries in order, enqueues the frame on open controllers, and deletes a
session whose enqueue throws; returns the resulting map and the list of
(session id, frame) writes in the order performed. -/
def broadcastLoop (frame : String) : SessionMap → SessionMap × List (String × String)
  | [] => ([], [])
  | (sid, s) :: rest =>
    let r := broadcastLoop frame rest
    match s.controller with
    | none => ((sid, s) :: r.1, r.2)
    | some c =>
      if c.closed then r
      else ((sid, s) :: r.1, (sid, frame) :: r.2)

/-- `StreamableHttpTransport.broadcastMessage` (`transport.ts:165`). -/
def broadcastMessage (m : JSONRPCMessage) (sessions : SessionMap) :
    SessionMap × List (String × String) :=
  broadcastLoop (eventFrame m) sessions

/-- `StreamableHttpTransport.sendResponse` (`transport.ts:160`): the body is
empty, so the map is untouched and nothing is written. -/
def sendResponse (_m : JSONRPCMessage) (sessions : SessionMap) :
    SessionMap × List (String × String) :=
  (sessions, [])

/-- `StreamableHttpTransport.send` (`transport.ts:70`): messages with a
non-null `id` go to `sendResponse`; everything else is broadcast. -/
def send (m : JSONRPCMessage) (sessions : SessionMap) :
    SessionMap × List (String × String) :=
  match m.idField with
  | some (some _) => sendResponse m sessions
  | _ => broadcastMessage m sessions

/-- Locates the first `://` in a character list, returning the scheme part
before it and the remainder after it. -/
def findSchemeSep : List Char → Option (List Char × List Char)
  | [] => none
  | ':' :: '/' :: '/' :: rest => some ([], rest)
  | c :: rest =>
    match findSchemeSep rest with
    | some (pre, post) => some (c :: pre, post)
    | none => none

/-- The host portion of an authority: the characters up to the first port,
path, query or fragment delimiter. -/
def hostChars (l : List Char) : List Char :=
  l.takeWhile (fun c => c ≠ ':' && c ≠ '/' && c ≠ '?' && c ≠ '#')

/-- Model of `new URL(s).hostname` for the absolute-URL origin strings the
transport inspects: `none` models the constructor throwing. Requires a
nonempty alphabetic scheme, the `://` separator and a nonempty host; the
hostname is returned lowercased as the WHATWG parser does. (A simplified
model of the platform URL parser, adequate for origin strings.) -/
def urlHostname (s : String) : Option String :=
  match findSchemeSep s.data with
  | none => none
  | some (scheme, rest) =>
    if scheme ≠ [] && scheme.all Char.isAlpha && hostChars rest ≠ [] then
      some (String.mk ((hostChars rest).map Char.toLower))
    else none

/-- `StreamableHttpTransport.isValidOrigin` (`transport.ts:185`): parse the
origin as a URL and compare the hostname against the two literals; a parse
failure returns false. -/
def isValidOrigin (origin : String) : Bool :=
  match urlHostname origin with
  | some h => h == "localhost" || h == "127.0.0.1"
  | none => false

/-- The origin guard of `handleRequest` (`transport.ts:89`-`92`):
`origin && !this.isValidOrigin(origin)`. An absent header — and an empty
header value, which is falsy — passes the guard unvalidated. -/
def originRejected : Option String → Bool
  | none => false
  | some o => o != "" && !(isValidOrigin o)

/-- `StreamableHttpTransport.isSupportedProtocolVersion`
(`transport.ts:196`). -/
def isSupportedProtocolVersion (v : String) : Bool := v == "2025-03-26"

/-- The defaulting expression
`request.headers.get("MCP-Protocol-Version") || "2025-03-26"` at
`transport.ts:95`: a missing header yields `null` and an empty header value
is falsy, so both default to the baseline. -/
def effectiveVersion : Option String → String
  | none => "2025-03-26"
  | some s => if s == "" then "2025-03-26" else s

/-- The version guard of `handleRequest` (`transport.ts:95`-`98`). -/
def versionGateRejects (v : Option String) : Bool :=
  !(isSupportedProtocolVersion (effectiveVersion v))

/-- The transport options that reach `handleRequest` (`transport.ts:9`);
host and port only select the listening socket, so just the path is kept. -/
structure TransportConfig where
  path : String
deriving DecidableEq

/-- The request metadata `handleRequest` inspects: the URL path, the
`origin` and `MCP-Protocol-Version` headers (`none` models an absent
header) and the HTTP method. -/
structure HttpRequest where
  pathname : String
  origin : Option String
  protocolVersion : Option String
  method : String
deriving DecidableEq

/-- Model of `JSON.parse(body)` as viewed by `handlePostRequest`
(`transport.ts:112`): `fail` models the parse throwing; `obj` a body whose
JSON value is an object, decoded into the message view (an array also
takes this path — the `in` operator treats it as an object with no `id`
property, so it decodes to the all-absent view); `prim` a body whose JSON
value is a primitive — number, string, boolean or null, carried here as
its JSON text — on which the membership test `"id" in message` throws. -/
inductive ParseOutcome where
  | fail : ParseOutcome
  | obj : JSONRPCMessage → ParseOutcome
  | prim : String → ParseOutcome
deriving DecidableEq

/-- Model of the registered `messageHandler` (`transport.ts:24`):
`registered` is whether a handler was set via `onMessage`, and `throws m`
whether the synchronous call `this.messageHandler(m)` throws. -/
structure HandlerSpec where
  registered : Bool
  throws : JSONRPCMessage → Bool

/-- Observable outcome of `handlePostRequest`: the HTTP status, the
message objects passed to the handler, and the primitive JSON values
passed to the handler (by their JSON text), each in call order. -/
structure PostResult where
  status : Nat
  handlerCalls : List JSONRPCMessage
  primCalls : List String
deriving DecidableEq

/-- `StreamableHttpTransport.handlePostRequest` (`transport.ts:109`): parse
the body; on success invoke the handler when registered — an exception
from either lands in the catch branch returning 400 — then test the id
field and return 202 in both the null-id and the non-null-id case. On a
primitive body the handler (when registered) is invoked first, and the
request is answered 400 whatever the handler does: either the handler
throws, or the membership test `"id" in message` throws on the primitive;
both land in the catch branch. -/
def handlePostRequest (h : HandlerSpec) (p : ParseOutcome) : PostResult :=
  match p with
  | ParseOutcome.fail => ⟨400, [], []⟩
  | ParseOutcome.obj m =>
    if h.registered then
      if h.throws m then ⟨400, [m], []⟩
      else ⟨202, [m], []⟩
    else ⟨202, [], []⟩
  | ParseOutcome.prim v =>
    if h.registered then ⟨400, [], [v]⟩ else ⟨400, [], []⟩

/-- `StreamableHttpTransport.generateSessionId` (`transport.ts:180`): the
concatenation of two draws of
`Math.random().toString(36).substring(2, 15)`. The draws are modelled as an
oracle stream `draw` consumed left to right from index `k`; `Math.random`
is a non-cryptographic generator whose outputs may repeat, so the oracle
ranges over arbitrary streams, repetitions included. -/
def generateSessionId (draw : Nat → String) (k : Nat) : String :=
  draw k ++ draw (k + 1)

/-- Observable outcome of `handleGetRequest`: status, updated map, index of
the next unconsumed random draw, and the `X-Session-ID` header value. -/
structure GetResult where
  status : Nat
  sessions : SessionMap
  rngIdx : Nat
  sessionIdHeader : String
deriving DecidableEq

/-- `StreamableHttpTransport.handleGetRequest` (`transport.ts:132`):
generate a session id, register a session whose controller is the new open
controller of the new open stream (the stream `start` callback runs synchronously at
construction), and answer 200 with the id in the `X-Session-ID` header. -/
def handleGetRequest (draw : Nat → String) (k : Nat) (sessions : SessionMap) : GetResult :=
  let sid := generateSessionId draw k
  ⟨200, mapSet sessions sid ⟨sid, some ⟨false⟩⟩, k + 2, sid⟩

/-- Observable outcome of `handleRequest`: status, updated session map,
next random-draw index, handler invocations on message objects and on
primitive JSON values, and the `X-Session-ID` header when one is set. -/
structure RequestResult where
  status : Nat
  sessions : SessionMap
  rngIdx : Nat
  handlerCalls : List JSONRPCMessage
  primCalls : List String
  sessionIdHeader : Option String
deriving DecidableEq

/-- `StreamableHttpTransport.handleRequest` (`transport.ts:81`): path check,
origin guard, version guard, then dispatch on the HTTP method. `p` is the
parse outcome of the request body (relevant only on the POST branch). -/
def handleRequest (cfg : TransportConfig) (h : HandlerSpec) (draw : Nat → String)
    (sessions : SessionMap) (k : Nat) (req : HttpRequest) (p : ParseOutcome) :
    RequestResult :=
  if req.pathname ≠ cfg.path then ⟨404, sessions, k, [], [], none⟩
  else if originRejected req.origin then ⟨403, sessions, k, [], [], none⟩
  else if versionGateRejects req.protocolVersion then ⟨400, sessions, k, [], [], none⟩
  else if req.method = "POST" then
    let r := handlePostRequest h p
    ⟨r.status, sessions, k, r.handlerCalls, r.primCalls, none⟩
  else if req.method = "GET" then
    let g := handleGetRequest draw k sessions
    ⟨g.status, g.sessions, g.rngIdx, [], [], some g.sessionIdHeader⟩
  else ⟨405, sessions, k, [], [], none⟩

/-- Modelled from the spec: the §3 data-model predicate "a discriminated
union over three shapes sharing a version tag" — a Request (non-null id,
method, no result or error), a Response (non-null id and exactly one of
result or error), or a Notification (method, absent-or-null id, no result
or error). Used only to compare the notion in the spec of "parses as one
Protocol Message" with what the code actually checks. -/
def isProtocolMessage (m : JSONRPCMessage) : Bool :=
  let nonNullId := match m.idField with
    | some (some _) => true
    | _ => false
  (m.jsonrpc == some "2.0")
    && ((nonNullId && m.method.isSome && !m.hasResult && !m.hasError)
      || (nonNullId && m.method.isNone && (m.hasResult != m.hasError))
      || (!nonNullId && m.method.isSome && !m.hasResult && !m.hasError))

/-- Modelled from the spec: "it must parse as a valid URL whose host is a
loopback address" (§4.1). Loopback hosts are `localhost` and the IPv4
loopback block 127.0.0.0/8. -/
def isLoopbackIPv4 (h : String) : Bool :=
  match h.data.splitOn '.' with
  | [a, b, c, d] =>
    let octet := fun (l : List Char) =>
      l ≠ [] && l.all Char.isDigit
        && l.foldl (fun acc ch => acc * 10 + (ch.toNat - 48)) 0 ≤ 255
    a = ['1', '2', '7'] && octet a && octet b && octet c && octet d
  | _ => false

/-- Modelled from the spec: the acceptance predicate of the §4.1 origin rule —
the origin parses as a URL and its host is a loopback address. -/
def specOriginAccepted (o : String) : Bool :=
  match urlHostname o with
  | some h => h == "localhost" || isLoopbackIPv4 h
  | none => false

theorem broadcastLoop_eq (frame : String) (m : SessionMap) :
    broadcastLoop frame m
      = (m.filter (fun e => sessionKept e.2),
         (m.filter (fun e => sessionWritable e.2)).map (fun e => (e.1, frame))) := by
  induction m with
  | nil => rfl
  | cons e rest ih =>
    obtain ⟨sid, s⟩ := e
    simp only [broadcastLoop, ih]
    cases hc : s.controller with
    | none =>
      simp [sessionKept, sessionWritable, hc, List.filter_cons]
    | some c =>
      cases hcl : c.closed <;>
        simp [sessionKept, sessionWritable, hc, hcl, List.filter_cons]

/-! Concrete fixtures: the configuration of `index.ts` (`path: "/mcp"`),
sample messages, handlers, registries and requests used to instantiate the
theorems below. -/

/-- The configuration `index.ts` passes to the transport. -/
def demoCfg : TransportConfig := ⟨"/mcp"⟩

/-- A draw oracle on which every `Math.random` composite returns the same
string — an achievable behaviour of a pseudo-random generator, whose
outputs carry no freshness guarantee. -/
def constDraw : Nat → String := fun _ => "abc"

/-- No handler registered. -/
def noHandler : HandlerSpec := ⟨false, fun _ => false⟩

/-- A registered handler that always returns normally. -/
def okHandler : HandlerSpec := ⟨true, fun _ => false⟩

/-- A registered handler that always throws. -/
def throwingHandler : HandlerSpec := ⟨true, fun _ => true⟩

/-- The Request body of the spec test vector
`"jsonrpc":"2.0","id":1,"method":"x"`. -/
def reqMsg : JSONRPCMessage := ⟨some "2.0", some (some (RpcId.num 1)), some "x", none, false, false⟩

/-- The Response correlated to `reqMsg`: id 1 and a result payload. -/
def respMsg : JSONRPCMessage := ⟨some "2.0", some (some (RpcId.num 1)), none, none, true, false⟩

/-- A server-initiated Request (non-null string id). -/
def serverReqMsg : JSONRPCMessage :=
  ⟨some "2.0", some (some (RpcId.str "srv-1")), some "ping", none, false, false⟩

/-- A Notification (no id field). -/
def notifMsg : JSONRPCMessage := ⟨some "2.0", none, some "progress", none, false, false⟩

/-- A second Notification, for a subsequent broadcast. -/
def notifMsg2 : JSONRPCMessage := ⟨some "2.0", none, some "done", none, false, false⟩

/-- The decoded value of the body `"\x7b\x7d"`: a JSON object with no
fields at all. -/
def emptyObjMsg : JSONRPCMessage := ⟨none, none, none, none, false, false⟩

/-- An open session under key `a`. -/
def openSessionA : Session := ⟨"a", some ⟨false⟩⟩

/-- A session under key `b` whose stream is closed: its enqueue throws. -/
def closedSessionB : Session := ⟨"b", some ⟨true⟩⟩

/-- An open session under key `c`. -/
def openSessionC : Session := ⟨"c", some ⟨false⟩⟩

/-- A registry with two open sessions around one closed one. -/
def demoRegistry : SessionMap := [("a", openSessionA), ("b", closedSessionB), ("c", openSessionC)]

/-- A plain POST to the configured path with no origin or version header. -/
def postReq : HttpRequest := ⟨"/mcp", none, none, "POST"⟩

/-- A GET carrying a version header that holds the empty string. -/
def emptyVersionGet : HttpRequest := ⟨"/mcp", none, some "", "GET"⟩

/-- A GET carrying a non-baseline version header. -/
def badVersionGet : HttpRequest := ⟨"/mcp", none, some "bogus", "GET"⟩

/-- A GET carrying both a forbidden origin and an unsupported version. -/
def evilBothReq : HttpRequest := ⟨"/mcp", some "http://evil.example.com", some "bogus", "GET"⟩

/-- A GET whose origin header holds the empty string. -/
def emptyOriginGet : HttpRequest := ⟨"/mcp", some "", none, "GET"⟩

/-- A GET whose origin is a loopback address other than 127.0.0.1. -/
def loopback2Get : HttpRequest := ⟨"/mcp", some "http://127.0.0.2:3000", none, "GET"⟩

/-- A GET with the forbidden origin of the spec test vector. -/
def evilOriginGet : HttpRequest := ⟨"/mcp", some "http://evil.example.com", none, "GET"⟩

/-- In an association list with distinct keys, the entry under a key is
unique. -/
theorem nodup_key_unique (l : SessionMap) (hnd : (l.map Prod.fst).Nodup)
    (k : String) (a b : Session) (ha : (k, a) ∈ l) (hb : (k, b) ∈ l) : a = b := by
  induction l with
  | nil => cases ha
  | cons e rest ih =>
    rw [List.map_cons, List.nodup_cons] at hnd
    rcases List.mem_cons.mp ha with ha1 | ha1
    · rcases List.mem_cons.mp hb with hb1 | hb1
      · exact (Prod.ext_iff.mp (ha1.trans hb1.symm)).2
      · exfalso
        apply hnd.1
        have he1 : e.1 = k := by rw [← ha1]
        rw [he1]
        exact List.mem_map_of_mem Prod.fst hb1
    · rcases List.mem_cons.mp hb with hb1 | hb1
      · exfalso
        apply hnd.1
        have he1 : e.1 = k := by rw [← hb1]
        rw [he1]
        exact List.mem_map_of_mem Prod.fst ha1
      · exact ih hnd.2 ha1 hb1

/-- A successfully writable session is kept by the broadcast loop. -/
theorem sessionWritable_kept (s : Session) (h : sessionWritable s = true) :
    sessionKept s = true := by
  obtain ⟨sid, controller⟩ := s
  cases controller with
  | none =>
    simp [sessionWritable] at h
  | some c =>
    simp [sessionWritable] at h
    simp [sessionKept, h]

/-- A registry entry the broadcast loop drops has its key absent from the
filtered registry, provided keys are distinct. -/
theorem key_not_in_filtered (sessions : SessionMap) (sid : String) (s : Session)
    (hnd : (sessions.map Prod.fst).Nodup) (hmem : (sid, s) ∈ sessions)
    (hk : sessionKept s = false) :
    sid ∉ (sessions.filter (fun e => sessionKept e.2)).map Prod.fst := by
  intro hin
  rcases List.mem_map.mp hin with ⟨e, hef, hfst⟩
  rcases List.mem_filter.mp hef with ⟨hes, hkeep⟩
  obtain ⟨k0, s0⟩ := e
  have hk0 : k0 = sid := hfst
  subst hk0
  have hkeep2 : sessionKept s0 = true := hkeep
  have hs0 : s0 = s := nodup_key_unique sessions hnd k0 s0 s hes hmem
  rw [hs0, hk] at hkeep2
  cases hkeep2

/-- C1: the code never delivers a correlated Response for a submitted
Request: the POST carrying the request with id 1 is acknowledged 202, and
when the handler later hands the correlated response to `send`, it is
routed to the empty `sendResponse` and discarded — zero outward responses
reach any session, even with open subscribers registered, contradicting
the exactly-one-response contract and the code comments at
`transport.ts:125` and `transport.ts:161`. -/
theorem correlated_response_never_delivered :
    (handleRequest demoCfg okHandler constDraw demoRegistry 0 postReq
        (ParseOutcome.obj reqMsg)).status = 202
    ∧ send respMsg demoRegistry = (demoRegistry, [])
    ∧ sendResponse respMsg demoRegistry = (demoRegistry, []) :=
  ⟨rfl, rfl, rfl⟩

/-- C2: `send` on any message whose id field is present and non-null is
routed to `sendResponse`, a no-op: no session stream is written and the
registry is returned unchanged — the message is silently dropped, not
broadcast. -/
theorem send_nonnull_id_is_noop (m : JSONRPCMessage) (v : RpcId)
    (h : m.idField = some (some v)) (sessions : SessionMap) :
    send m sessions = (sessions, []) := by
  unfold send
  rw [h]
  rfl

/-- Witness for C2: a server-initiated request with a nonempty registry. -/
theorem send_nonnull_id_is_noop_witness :
    send serverReqMsg [("a", openSessionA)] = ([("a", openSessionA)], []) :=
  send_nonnull_id_is_noop serverReqMsg (RpcId.str "srv-1") rfl [("a", openSessionA)]

/-- C3 counterexample: two subscribe calls whose pseudo-random draws
coincide — an achievable behaviour, since `Math.random` is a
non-cryptographic generator whose outputs may repeat — return the same
session identifier, and the second registration overwrites the first,
leaving a single session in the registry. -/
theorem subscribe_calls_can_collide :
    (handleGetRequest constDraw 0 []).sessionIdHeader = "abcabc"
    ∧ (handleGetRequest constDraw (handleGetRequest constDraw 0 []).rngIdx
        (handleGetRequest constDraw 0 []).sessions).sessionIdHeader = "abcabc"
    ∧ (handleGetRequest constDraw (handleGetRequest constDraw 0 []).rngIdx
        (handleGetRequest constDraw 0 []).sessions).sessions.length = 1 := by
  decide

/-- C3 amended: the session identifier is a deterministic function of two
consecutive pseudo-random draws, so subscribe calls whose draws coincide
produce identical identifiers — the code enforces neither uniqueness nor
unguessability of session ids. -/
theorem sessionId_deterministic_in_draws (draw : Nat → String) (k j : Nat)
    (h1 : draw k = draw j) (h2 : draw (k + 1) = draw (j + 1)) :
    generateSessionId draw k = generateSessionId draw j := by
  unfold generateSessionId
  rw [h1, h2]

/-- Witness for the amended C3 at the constant draw oracle. -/
theorem sessionId_deterministic_in_draws_witness :
    generateSessionId constDraw 0 = generateSessionId constDraw 5 :=
  sessionId_deterministic_in_draws constDraw 0 5 rfl rfl

/-- `handlePostRequest` answers either 400 or 202, never anything else. -/
theorem handlePost_status_cases (h : HandlerSpec) (p : ParseOutcome) :
    (handlePostRequest h p).status = 400 ∨ (handlePostRequest h p).status = 202 := by
  cases p with
  | fail => left; rfl
  | obj m =>
    by_cases hr : h.registered = true
    · by_cases ht : h.throws m = true
      · left
        simp [handlePostRequest, hr, ht]
      · right
        simp [handlePostRequest, hr, ht]
    · right
      simp [handlePostRequest, hr]
  | prim v =>
    left
    by_cases hr : h.registered = true
    · simp [handlePostRequest, hr]
    · simp [handlePostRequest, hr]

/-- C4 counterexample: a protocol-version header present with the empty
string — a string value different from the baseline — is accepted, because
the `||` default treats the falsy empty string like a missing header; and a
request carrying both a forbidden origin and an unsupported version is
answered 403, not 400, because the origin guard runs first. -/
theorem empty_version_header_accepted :
    ¬ ("" = "2025-03-26")
    ∧ (handleRequest demoCfg noHandler constDraw [] 0 emptyVersionGet
        ParseOutcome.fail).status = 200
    ∧ (handleRequest demoCfg noHandler constDraw [] 0 evilBothReq
        ParseOutcome.fail).status = 403 := by
  refine ⟨by decide, rfl, rfl⟩

/-- C4 amended: on the configured path, once the origin guard passes, the
version gate accepts exactly a missing header, an empty header value and
the baseline value `2025-03-26`; every other header value is rejected with
status 400, before the method dispatch, body handling, handler invocation
or any session-registry change. -/
theorem version_gate (cfg : TransportConfig) (h : HandlerSpec) (draw : Nat → String)
    (sessions : SessionMap) (k : Nat) (req : HttpRequest) (p : ParseOutcome)
    (hpath : req.pathname = cfg.path) (horig : originRejected req.origin = false) :
    (versionGateRejects req.protocolVersion = false ↔
      req.protocolVersion = none ∨ req.protocolVersion = some ""
        ∨ req.protocolVersion = some "2025-03-26")
    ∧ (versionGateRejects req.protocolVersion = true →
        handleRequest cfg h draw sessions k req p = ⟨400, sessions, k, [], [], none⟩) := by
  constructor
  · cases hv : req.protocolVersion with
    | none =>
      simp [versionGateRejects, effectiveVersion, isSupportedProtocolVersion]
    | some s =>
      by_cases hs : s = ""
      · subst hs
        simp [versionGateRejects, effectiveVersion, isSupportedProtocolVersion]
      · simp [versionGateRejects, effectiveVersion, isSupportedProtocolVersion, hs]
  · intro hrej
    simp [handleRequest, hpath, horig, hrej]

/-- Witness for the amended C4 at a concrete non-baseline header. -/
theorem version_gate_witness :
    handleRequest demoCfg noHandler constDraw [] 0 badVersionGet ParseOutcome.fail
      = ⟨400, [], 0, [], [], none⟩ :=
  (version_gate demoCfg noHandler constDraw [] 0 badVersionGet ParseOutcome.fail
    rfl rfl).2 rfl

/-- C5 counterexample: the origin `http://127.0.0.2:3000` parses as a URL
whose host lies in the IPv4 loopback block, yet the request is answered 403
— the code compares the hostname against the literals `localhost` and
`127.0.0.1` only; and an origin header present with the empty string, which
parses as no URL at all, is accepted because the falsy guard skips
validation. -/
theorem loopback_origin_gap :
    specOriginAccepted "http://127.0.0.2:3000" = true
    ∧ (handleRequest demoCfg noHandler constDraw [] 0 loopback2Get
        ParseOutcome.fail).status = 403
    ∧ urlHostname "" = none
    ∧ (handleRequest demoCfg noHandler constDraw [] 0 emptyOriginGet
        ParseOutcome.fail).status = 200 := by
  refine ⟨by decide, rfl, rfl, rfl⟩

/-- C5 amended: on the configured path, a request is answered 403 exactly
when an origin header is present with a nonempty value that fails
`isValidOrigin`; and `isValidOrigin` accepts exactly the strings parsing as
a URL whose hostname is the literal `localhost` or `127.0.0.1`. Absent —
and empty — origin headers are accepted. -/
theorem origin_gate (cfg : TransportConfig) (h : HandlerSpec) (draw : Nat → String)
    (sessions : SessionMap) (k : Nat) (req : HttpRequest) (p : ParseOutcome)
    (hpath : req.pathname = cfg.path) :
    ((handleRequest cfg h draw sessions k req p).status = 403 ↔
      ∃ o, req.origin = some o ∧ o ≠ "" ∧ isValidOrigin o = false)
    ∧ (∀ o, isValidOrigin o = true ↔
        (urlHostname o = some "localhost" ∨ urlHostname o = some "127.0.0.1")) := by
  constructor
  · by_cases horig : originRejected req.origin = true
    · have hstat : (handleRequest cfg h draw sessions k req p).status = 403 := by
        simp [handleRequest, hpath, horig]
      refine iff_of_true hstat ?_
      cases ho : req.origin with
      | none => rw [ho] at horig; simp [originRejected] at horig
      | some o =>
        rw [ho] at horig
        simp only [originRejected, Bool.and_eq_true, bne_iff_ne, ne_eq,
          Bool.not_eq_true'] at horig
        exact ⟨o, rfl, horig.1, horig.2⟩
    · have horig2 : originRejected req.origin = false := by
        cases h3 : originRejected req.origin
        · rfl
        · exact absurd h3 horig
      have hstat : (handleRequest cfg h draw sessions k req p).status ≠ 403 := by
        by_cases hv : versionGateRejects req.protocolVersion = true
        · simp [handleRequest, hpath, horig2, hv]
        · have hv2 : versionGateRejects req.protocolVersion = false := by
            cases h3 : versionGateRejects req.protocolVersion
            · rfl
            · exact absurd h3 hv
          by_cases hm : req.method = "POST"
          · rcases handlePost_status_cases h p with h4 | h4 <;>
              simp [handleRequest, hpath, horig2, hv2, hm, h4]
          · by_cases hg : req.method = "GET" <;>
              simp [handleRequest, hpath, horig2, hv2, hm, hg, handleGetRequest]
      refine iff_of_false hstat ?_
      rintro ⟨o, ho, hne, hbad⟩
      rw [ho] at horig2
      simp [originRejected, hne, hbad] at horig2
  · intro o
    unfold isValidOrigin
    cases hu : urlHostname o with
    | none => simp
    | some hst => simp

/-- Witness for the amended C5 at the forbidden origin of the spec test
vector. -/
theorem origin_gate_witness :
    (handleRequest demoCfg noHandler constDraw [] 0 evilOriginGet
        ParseOutcome.fail).status = 403 :=
  (origin_gate demoCfg noHandler constDraw [] 0 evilOriginGet ParseOutcome.fail
      rfl).1.mpr
    ⟨"http://evil.example.com", rfl, by decide, by decide⟩

/-- C6 counterexample: a well-formed Request body whose registered handler
throws during the synchronous dispatch is answered 400, not 202 — the
acknowledgment is not independent of the outcome of the handler, because
the handler runs inside the same try block as the body parse. -/
theorem throwing_handler_yields_400 :
    isProtocolMessage reqMsg = true
    ∧ (handleRequest demoCfg throwingHandler constDraw [] 0 postReq
        (ParseOutcome.obj reqMsg)).status = 400 :=
  ⟨rfl, rfl⟩

/-- C6 amended: an accepted POST whose body parses as a JSON object is
answered 202 — for requests and notifications alike, with the message
passed to the registered handler and the registry untouched — provided the
synchronously invoked handler returns normally (or none is registered); a
throwing handler is answered 400 instead. -/
theorem post_ack_202 (cfg : TransportConfig) (hs : HandlerSpec) (draw : Nat → String)
    (sessions : SessionMap) (k : Nat) (req : HttpRequest) (m : JSONRPCMessage)
    (hpath : req.pathname = cfg.path) (horig : originRejected req.origin = false)
    (hver : versionGateRejects req.protocolVersion = false) (hm : req.method = "POST")
    (hh : hs.registered = true → hs.throws m = false) :
    handleRequest cfg hs draw sessions k req (ParseOutcome.obj m)
      = ⟨202, sessions, k, if hs.registered then [m] else [], [], none⟩ := by
  by_cases hr : hs.registered = true
  · simp [handleRequest, hpath, horig, hver, hm, handlePostRequest, hr, hh hr]
  · have hr2 : hs.registered = false := by
      cases h3 : hs.registered
      · rfl
      · exact absurd h3 hr
    simp [handleRequest, hpath, horig, hver, hm, handlePostRequest, hr2]

/-- Witness for the amended C6: the spec test-vector request with a
non-throwing registered handler is acknowledged 202. -/
theorem post_ack_202_witness :
    handleRequest demoCfg okHandler constDraw [] 0 postReq (ParseOutcome.obj reqMsg)
      = ⟨202, [], 0, [reqMsg], [], none⟩ := by
  have h := post_ack_202 demoCfg okHandler constDraw [] 0 postReq reqMsg
    rfl rfl rfl rfl (fun _ => rfl)
  simpa using h

/-- C7 counterexample: two bodies that do not parse as Protocol Messages
refute the claim in both directions. The body consisting of the JSON
object with no fields is answered 202 — not 400 — and the handler is
invoked on it; the primitive body `5` is answered 400, but only after the
handler has been invoked on it (the membership test `"id" in message`
throws on a primitive after the handler call). The code validates only
JSON well-formedness, never the Protocol Message shape. -/
theorem non_message_object_not_rejected :
    isProtocolMessage emptyObjMsg = false
    ∧ (handleRequest demoCfg okHandler constDraw [] 0 postReq
        (ParseOutcome.obj emptyObjMsg)).status = 202
    ∧ (handleRequest demoCfg okHandler constDraw [] 0 postReq
        (ParseOutcome.obj emptyObjMsg)).handlerCalls = [emptyObjMsg]
    ∧ (handleRequest demoCfg okHandler constDraw [] 0 postReq
        (ParseOutcome.prim "5")).status = 400
    ∧ (handleRequest demoCfg okHandler constDraw [] 0 postReq
        (ParseOutcome.prim "5")).primCalls = ["5"] :=
  ⟨rfl, rfl, rfl, rfl, rfl⟩

/-- C7 amended: an accepted POST whose body fails JSON parsing is answered
400 with no further processing — the handler is never invoked, no random
draw is consumed and the session registry is returned unchanged. An
accepted POST whose body parses as a primitive JSON value (not an object)
is also answered 400 with the registry unchanged, but only after the value
has been handed to the registered handler; the Protocol Message shape
itself is never validated. -/
theorem parse_failure_400 (cfg : TransportConfig) (hs : HandlerSpec) (draw : Nat → String)
    (sessions : SessionMap) (k : Nat) (req : HttpRequest) (v : String)
    (hpath : req.pathname = cfg.path) (horig : originRejected req.origin = false)
    (hver : versionGateRejects req.protocolVersion = false) (hm : req.method = "POST") :
    handleRequest cfg hs draw sessions k req ParseOutcome.fail
      = ⟨400, sessions, k, [], [], none⟩
    ∧ handleRequest cfg hs draw sessions k req (ParseOutcome.prim v)
      = ⟨400, sessions, k, [], if hs.registered then [v] else [], none⟩ := by
  constructor
  · simp [handleRequest, hpath, horig, hver, hm, handlePostRequest]
  · by_cases hr : hs.registered = true
    · simp [handleRequest, hpath, horig, hver, hm, handlePostRequest, hr]
    · have hr2 : hs.registered = false := by
        cases h3 : hs.registered
        · rfl
        · exact absurd h3 hr
      simp [handleRequest, hpath, horig, hver, hm, handlePostRequest, hr2]

/-- Witness for the amended C7: a malformed body and the primitive body
`5`, over a nonempty registry with a registered handler. -/
theorem parse_failure_400_witness :
    handleRequest demoCfg okHandler constDraw [("a", openSessionA)] 0 postReq
        ParseOutcome.fail
      = ⟨400, [("a", openSessionA)], 0, [], [], none⟩
    ∧ handleRequest demoCfg okHandler constDraw [("a", openSessionA)] 0 postReq
        (ParseOutcome.prim "5")
      = ⟨400, [("a", openSessionA)], 0, [], ["5"], none⟩ := by
  have h := parse_failure_400 demoCfg okHandler constDraw [("a", openSessionA)] 0 postReq
    "5" rfl rfl rfl rfl
  simpa using h

/-- C8: during a broadcast, the session whose stream write fails is removed
— its key disappears from the registry — while every open session still
receives the frame and stays registered, so one failure aborts no other
delivery; in any subsequent broadcast the removed key receives no delivery
attempt, and every remaining open session receives the next frame. Keys are
assumed distinct, as the Map semantics guarantee. -/
theorem broadcast_failure_isolated (msg msg2 : JSONRPCMessage) (sessions : SessionMap)
    (sid : String) (s : Session) (c : Controller)
    (hmem : (sid, s) ∈ sessions) (hc : s.controller = some c) (hcl : c.closed = true)
    (hnd : (sessions.map Prod.fst).Nodup) :
    sid ∉ ((broadcastMessage msg sessions).1.map Prod.fst)
    ∧ (∀ e ∈ sessions, sessionWritable e.2 = true →
        e ∈ (broadcastMessage msg sessions).1
          ∧ (e.1, eventFrame msg) ∈ (broadcastMessage msg sessions).2)
    ∧ sid ∉ ((broadcastMessage msg2 (broadcastMessage msg sessions).1).2.map Prod.fst)
    ∧ (∀ e ∈ (broadcastMessage msg sessions).1, sessionWritable e.2 = true →
        (e.1, eventFrame msg2) ∈ (broadcastMessage msg2 (broadcastMessage msg sessions).1).2) := by
  have hk : sessionKept s = false := by
    simp [sessionKept, hc, hcl]
  unfold broadcastMessage
  simp only [broadcastLoop_eq]
  refine ⟨?_, ?_, ?_, ?_⟩
  · exact key_not_in_filtered sessions sid s hnd hmem hk
  · intro e he hw
    constructor
    · exact List.mem_filter.mpr ⟨he, sessionWritable_kept e.2 hw⟩
    · exact List.mem_map_of_mem _ (List.mem_filter.mpr ⟨he, hw⟩)
  · intro hin
    rcases List.mem_map.mp hin with ⟨q, hq, hq1⟩
    rcases List.mem_map.mp hq with ⟨e, he, hqe⟩
    rcases List.mem_filter.mp he with ⟨heF, _⟩
    apply key_not_in_filtered sessions sid s hnd hmem hk
    refine List.mem_map.mpr ⟨e, heF, ?_⟩
    have : q.1 = sid := hq1
    rw [← hqe] at this
    exact this
  · intro e he hw
    exact List.mem_map_of_mem _ (List.mem_filter.mpr ⟨he, hw⟩)

/-- Witness for C8: the three-session registry whose middle session is
closed, across two successive broadcasts. -/
theorem broadcast_failure_isolated_witness :
    "b" ∉ ((broadcastMessage notifMsg demoRegistry).1.map Prod.fst)
    ∧ (∀ e ∈ demoRegistry, sessionWritable e.2 = true →
        e ∈ (broadcastMessage notifMsg demoRegistry).1
          ∧ (e.1, eventFrame notifMsg) ∈ (broadcastMessage notifMsg demoRegistry).2)
    ∧ "b" ∉ ((broadcastMessage notifMsg2 (broadcastMessage notifMsg demoRegistry).1).2.map Prod.fst)
    ∧ (∀ e ∈ (broadcastMessage notifMsg demoRegistry).1, sessionWritable e.2 = true →
        (e.1, eventFrame notifMsg2)
          ∈ (broadcastMessage notifMsg2 (broadcastMessage notifMsg demoRegistry).1).2) :=
  broadcast_failure_isolated notifMsg notifMsg2 demoRegistry "b" closedSessionB ⟨true⟩
    (by decide) rfl rfl (by decide)

/-- C9: a message without an id field (or with a null id) handed to `send`
is broadcast: the open sessions each receive exactly the one frame
`data: ` followed by the JSON encoding of the message and the two-newline
event delimiter, written as one string per session; sessions whose write
throws are dropped; and a broadcast over an empty registry performs no
writes and completes without error. -/
theorem notification_fanout (m : JSONRPCMessage) (sessions : SessionMap)
    (h : m.idField = none ∨ m.idField = some none) :
    send m sessions
      = (sessions.filter (fun e => sessionKept e.2),
         (sessions.filter (fun e => sessionWritable e.2)).map
           (fun e => (e.1, "data: " ++ stringify m ++ "\n\n")))
    ∧ send m [] = ([], []) := by
  have hb : ∀ l : SessionMap, send m l = broadcastMessage m l := by
    intro l
    unfold send
    rcases h with h | h <;> rw [h]
  constructor
  · rw [hb]
    unfold broadcastMessage
    rw [broadcastLoop_eq]
    rfl
  · rw [hb]
    rfl

/-- Witness for C9: a notification over the three-session registry. -/
theorem notification_fanout_witness :
    send notifMsg demoRegistry
      = (demoRegistry.filter (fun e => sessionKept e.2),
         (demoRegistry.filter (fun e => sessionWritable e.2)).map
           (fun e => (e.1, "data: " ++ stringify notifMsg ++ "\n\n")))
    ∧ send notifMsg [] = ([], []) :=
  notification_fanout notifMsg demoRegistry (Or.inl rfl)

/-- C10: a request on the configured path that the gatekeeper rejects — a
forbidden origin or an unsupported protocol version — leaves the session
registry untouched, consumes no random draw, never invokes the message
handler, exposes no session header, and is answered 403 or 400; it never
reaches the registry or the router. -/
theorem gate_reject_no_effects (cfg : TransportConfig) (hs : HandlerSpec)
    (draw : Nat → String) (sessions : SessionMap) (k : Nat) (req : HttpRequest)
    (p : ParseOutcome) (hpath : req.pathname = cfg.path)
    (hrej : originRejected req.origin = true
      ∨ versionGateRejects req.protocolVersion = true) :
    (handleRequest cfg hs draw sessions k req p).sessions = sessions
    ∧ (handleRequest cfg hs draw sessions k req p).handlerCalls = []
    ∧ (handleRequest cfg hs draw sessions k req p).rngIdx = k
    ∧ (handleRequest cfg hs draw sessions k req p).sessionIdHeader = none
    ∧ ((handleRequest cfg hs draw sessions k req p).status = 403
        ∨ (handleRequest cfg hs draw sessions k req p).status = 400) := by
  by_cases horig : originRejected req.origin = true
  · simp [handleRequest, hpath, horig]
  · have horig2 : originRejected req.origin = false := by
      cases h3 : originRejected req.origin
      · rfl
      · exact absurd h3 horig
    have hver : versionGateRejects req.protocolVersion = true := by
      rcases hrej with h4 | h4
      · exact absurd h4 horig
      · exact h4
    simp [handleRequest, hpath, horig2, hver]

/-- Witness for C10 at a request with both a forbidden origin and an
unsupported version, over a nonempty registry. -/
theorem gate_reject_no_effects_witness :
    (handleRequest demoCfg okHandler constDraw [("a", openSessionA)] 0 evilBothReq
        ParseOutcome.fail).sessions = [("a", openSessionA)]
    ∧ (handleRequest demoCfg okHandler constDraw [("a", openSessionA)] 0 evilBothReq
        ParseOutcome.fail).handlerCalls = []
    ∧ (handleRequest demoCfg okHandler constDraw [("a", openSessionA)] 0 evilBothReq
        ParseOutcome.fail).rngIdx = 0
    ∧ (handleRequest demoCfg okHandler constDraw [("a", openSessionA)] 0 evilBothReq
        ParseOutcome.fail).sessionIdHeader = none
    ∧ ((handleRequest demoCfg okHandler constDraw [("a", openSessionA)] 0 evilBothReq
        ParseOutcome.fail).status = 403
      ∨ (handleRequest demoCfg okHandler constDraw [("a", openSessionA)] 0 evilBothReq
        ParseOutcome.fail).status = 400) :=
  gate_reject_no_effects demoCfg okHandler constDraw [("a", openSessionA)] 0 evilBothReq
    ParseOutcome.fail rfl (Or.inl (by decide))

end StreamableHttp
